import Mathlib

/-!
Shallow embedding of `src/StreamlitGeminiGPT/app.py` (a Streamlit chat UI
around the Gemini streaming API), together with theorems settling the
specification claims about context construction, streaming consumption and
error handling.
-/

set_option maxRecDepth 4096

/-- One chat turn, as stored in `st.session_state.messages`: a dict with a
`role` string (`"user"` or `"assistant"`) and a `content` string. -/
structure Turn where
  role : String
  content : String
deriving DecidableEq

/-- One streamed chunk of a Gemini response; the code only reads `chunk.text`. -/
structure Chunk where
  text : String
deriving DecidableEq

/-- One event observed while iterating the lazy response object: either the
next chunk is delivered, or the iteration raises an exception carrying the
message `e`.  A run of the real iterator is some sequence of chunks possibly
terminated by a raise. -/
inductive StreamEv
  | chunk (c : Chunk)
  | raise (e : String)
deriving DecidableEq

/-- Concatenation of a list of strings, in order. -/
def concatAll : List String → String
  | [] => ""
  | s :: rest => s ++ concatAll rest

/-- Python `messages[-10:]`: the last (at most) ten elements of the list. -/
def lastTen (l : List Turn) : List Turn :=
  l.drop (l.length - 10)

/-- The line contributed by one history message in the loop of
`get_ai_response` (app.py lines 55-57):
`role = "Human" if msg["role"] == "user" else "Assistant"` followed by
`f"{role}: {msg['content']}\n"`. -/
def roleLine (m : Turn) : String :=
  (if m.role = "user" then "Human" else "Assistant") ++ ": " ++ m.content ++ "\n"

/-- The part of the conversation context built by app.py lines 52-57:
the instructions header plus one role-prefixed line per message of
`messages[-10:]`. -/
def historyContext (instructions : String) (messages : List Turn) : String :=
  "Instructions: " ++ instructions ++ "\n\n"
    ++ concatAll ((lastTen messages).map roleLine)

/-- The full conversation context built by app.py lines 52-61.  `messages[-1]`
raises `IndexError` on an empty list (absorbed by the caller's handler), so
the result is `none` exactly when `messages` is empty. -/
def builtContext (instructions : String) (messages : List Turn) : Option String :=
  match messages.getLast? with
  | none => none
  | some last =>
      some (historyContext instructions messages
        ++ ("Human: " ++ last.content ++ "\nAssistant:"))

/-- The external generation capability (`st.session_state.model`): invoking
`generate_content` on a prompt either raises at call time (`Except.error`)
or returns a lazy stream whose iteration produces the given events. -/
structure Model where
  generate : String → Except String (List StreamEv)

/-- Result of `get_ai_response`: the Python function returns either a plain
string (every error path) or the streaming response object; the caller
distinguishes the two with `isinstance(response_stream, str)`. -/
inductive AiResult
  | errorStr (s : String)
  | stream (evs : List StreamEv)
deriving DecidableEq

/-- `get_ai_response(messages, instructions)` (app.py lines 45-71).  The
second component of the result is the list of prompts actually sent to
`generate_content` (empty on the short-circuit paths, recording that no
network call was attempted).  The `IndexError` raised by `messages[-1]` on
an empty list is caught by the `except` clause and stringified by CPython
as `"list index out of range"`. -/
def get_ai_response (model : Option Model) (messages : List Turn)
    (instructions : String) : AiResult × List String :=
  match model with
  | none =>
      (.errorStr "Error: Gemini API not configured properly. Please check your API key.", [])
  | some m =>
      match messages.getLast? with
      | none => (.errorStr ("Error: " ++ "list index out of range"), [])
      | some last =>
          let ctx := historyContext instructions messages
            ++ ("Human: " ++ last.content ++ "\nAssistant:")
          match m.generate ctx with
          | .error e => (.errorStr ("Error: " ++ e), [ctx])
          | .ok evs => (.stream evs, [ctx])

/-- `stream_response` (app.py lines 36-43): iterate the response, yielding
`chunk.text` for every chunk with truthy (non-empty) text; if the iteration
raises, catch it, yield one formatted error message, and stop (events after
the raise are never seen). -/
def stream_response : List StreamEv → List String
  | [] => []
  | StreamEv.chunk c :: rest =>
      if c.text = "" then stream_response rest
      else c.text :: stream_response rest
  | StreamEv.raise e :: _ => ["Error generating response: " ++ e]

/-- The texts the generator yields for a run of chunks (no raise): every
non-empty `chunk.text`, in order. -/
def nonEmptyTexts (chunks : List Chunk) : List String :=
  chunks.filterMap fun c => if c.text = "" then none else some c.text

/-- State of the rendering loop of `render_chat_interface` (app.py lines
160-166): the accumulator `full_response` and a clock advanced by the pacing
delay of `time.sleep` after each emission. -/
structure RenderState where
  accum : String
  clock : Nat
deriving DecidableEq

/-- The consumer loop `for chunk in stream_response(...)` (app.py lines
163-166): append each yielded value to `full_response` and sleep for the
pacing delay. -/
def consumeLoop (delay : Nat) : List String → RenderState → RenderState
  | [], st => st
  | y :: rest, st => consumeLoop delay rest ⟨st.accum ++ y, st.clock + delay⟩

/-- The `content` of the assistant turn appended to the conversation by
`render_chat_interface` (app.py lines 153-176): the error string itself when
`get_ai_response` returned a string, otherwise the final value of
`full_response` after consuming `stream_response`. -/
def renderOutcome (delay : Nat) (r : AiResult) : String :=
  match r with
  | .errorStr s => s
  | .stream evs => (consumeLoop delay (stream_response evs) ⟨"", 0⟩).accum

/-- The clear-conversation action (app.py lines 104-106):
`st.session_state.messages = []`. -/
def clearConversation (_messages : List Turn) : List Turn := []

/-- `initialize_session_state`'s model setup (app.py lines 29-34): if
`configure_gemini()` raises, the exception is caught, an error banner is
shown, and the model is set to `None`; otherwise the configured model is
stored. -/
def init_session_model (res : Except String Model) : Option Model :=
  match res with
  | .ok m => some m
  | .error _ => none

/-- The session state fields read by `get_ai_response` via
`st.session_state`, threaded explicitly. -/
structure SessionState where
  messages : List Turn
  gptInstructions : String
  model : Option Model

/-- `get_ai_response` with the session state threaded explicitly: the body
(app.py lines 45-71) only reads `st.session_state.model` and its arguments,
assigning nothing back into the session, so every branch returns the state
it received. -/
def get_ai_response_st (st : SessionState) : (AiResult × List String) × SessionState :=
  match st.model with
  | none =>
      ((.errorStr "Error: Gemini API not configured properly. Please check your API key.", []), st)
  | some m =>
      match st.messages.getLast? with
      | none => ((.errorStr ("Error: " ++ "list index out of range"), []), st)
      | some last =>
          let ctx := historyContext st.gptInstructions st.messages
            ++ ("Human: " ++ last.content ++ "\nAssistant:")
          match m.generate ctx with
          | .error e => ((.errorStr ("Error: " ++ e), [ctx]), st)
          | .ok evs => ((.stream evs, [ctx]), st)

/-! ## Helper lemmas -/

theorem concatAll_append (xs ys : List String) :
    concatAll (xs ++ ys) = concatAll xs ++ concatAll ys := by
  induction xs with
  | nil => simp [concatAll, String.empty_append]
  | cons x xs ih => simp [concatAll, ih, String.append_assoc]

theorem consumeLoop_accum (delay : Nat) (ys : List String) (a : String) (c : Nat) :
    (consumeLoop delay ys ⟨a, c⟩).accum = a ++ concatAll ys := by
  induction ys generalizing a c with
  | nil => simp [consumeLoop, concatAll, String.append_empty]
  | cons y ys ih => simp [consumeLoop, concatAll, ih, String.append_assoc]

theorem stream_response_of_chunks (chunks : List Chunk) :
    stream_response (chunks.map StreamEv.chunk) = nonEmptyTexts chunks := by
  induction chunks with
  | nil => rfl
  | cons c cs ih =>
      simp only [List.map_cons, stream_response, nonEmptyTexts, List.filterMap_cons]
      by_cases h : c.text = "" <;> simp [h, ih, nonEmptyTexts]

theorem stream_response_raise (chunks : List Chunk) (e : String) (rest : List StreamEv) :
    stream_response (chunks.map StreamEv.chunk ++ StreamEv.raise e :: rest) =
      nonEmptyTexts chunks ++ ["Error generating response: " ++ e] := by
  induction chunks with
  | nil => rfl
  | cons c cs ih =>
      simp only [List.map_cons, List.cons_append, stream_response, nonEmptyTexts,
        List.filterMap_cons]
      by_cases h : c.text = "" <;> simp [h, ih, nonEmptyTexts]

theorem concatAll_nonEmptyTexts (chunks : List Chunk) :
    concatAll (nonEmptyTexts chunks) = concatAll (chunks.map Chunk.text) := by
  induction chunks with
  | nil => rfl
  | cons c cs ih =>
      simp only [nonEmptyTexts, List.filterMap_cons] at ih ⊢
      by_cases h : c.text = "" <;> simp [h, concatAll, ih, String.empty_append]

theorem builtContext_eq (ins : String) (msgs : List Turn) (last : Turn)
    (hl : msgs.getLast? = some last) :
    builtContext ins msgs =
      some ("Instructions: " ++ ins ++ "\n\n"
        ++ concatAll ((lastTen msgs).map roleLine)
        ++ ("Human: " ++ last.content ++ "\nAssistant:")) := by
  unfold builtContext
  rw [hl]
  rfl

/-! ## Claim theorems -/

/-- Claim C1, counterexample: the spec's expected context for instructions
`"Be terse."` and history `[{user, "Hi"}]` is wrong on the code — the built
context is not `"Instructions: Be terse.\n\nHuman: Hi\nAssistant:"`, because
the history loop already includes the in-flight user turn and the latest
turn is appended once more. -/
theorem context_single_turn_spec_string_refuted :
    ¬ builtContext "Be terse." [⟨"user", "Hi"⟩] =
        some "Instructions: Be terse.\n\nHuman: Hi\nAssistant:" := by
  decide

/-- Claim C1, amended: for instructions `"Be terse."` and history
`[{user, "Hi"}]` the built context is
`"Instructions: Be terse.\n\nHuman: Hi\nHuman: Hi\nAssistant:"`; in general
the prompt is derived from the instructions, the last 10 turns of the
conversation including the in-flight user turn, and the latest user turn
appended once more with an explicit role marker. -/
theorem context_single_turn_duplicated (ins : String) (msgs : List Turn) (last : Turn)
    (hl : msgs.getLast? = some last) :
    builtContext "Be terse." [⟨"user", "Hi"⟩] =
        some "Instructions: Be terse.\n\nHuman: Hi\nHuman: Hi\nAssistant:"
    ∧ builtContext ins msgs =
        some ("Instructions: " ++ ins ++ "\n\n"
          ++ concatAll ((lastTen msgs).map roleLine)
          ++ ("Human: " ++ last.content ++ "\nAssistant:")) :=
  ⟨by decide, builtContext_eq ins msgs last hl⟩

/-- Witness for C1's amended theorem at the concrete single-turn input. -/
theorem context_single_turn_duplicated_witness :
    ([⟨"user", "Hi"⟩] : List Turn).getLast? = some ⟨"user", "Hi"⟩
    ∧ (builtContext "Be terse." [⟨"user", "Hi"⟩] =
          some "Instructions: Be terse.\n\nHuman: Hi\nHuman: Hi\nAssistant:"
        ∧ builtContext "Be terse." [⟨"user", "Hi"⟩] =
          some ("Instructions: " ++ "Be terse." ++ "\n\n"
            ++ concatAll ((lastTen [⟨"user", "Hi"⟩]).map roleLine)
            ++ ("Human: " ++ (⟨"user", "Hi"⟩ : Turn).content ++ "\nAssistant:"))) :=
  ⟨rfl, context_single_turn_duplicated "Be terse." [⟨"user", "Hi"⟩] ⟨"user", "Hi"⟩ rfl⟩

/-- Claim C3: for every non-empty history (last element `last`) and any
instructions, the built context decomposes as the instructions header, then
the role-prefixed history lines, then the duplicated final
`Human: <latest>` line followed by the single trailing `Assistant:` marker,
and the number of role-prefixed history lines is exactly
`min 10 (length history)`. -/
theorem context_role_line_count (ins : String) (msgs : List Turn) (last : Turn)
    (hl : msgs.getLast? = some last) :
    builtContext ins msgs =
      some ("Instructions: " ++ ins ++ "\n\n"
        ++ concatAll ((lastTen msgs).map roleLine)
        ++ ("Human: " ++ last.content ++ "\nAssistant:"))
    ∧ ((lastTen msgs).map roleLine).length = min 10 msgs.length := by
  refine ⟨builtContext_eq ins msgs last hl, ?_⟩
  simp only [List.length_map, lastTen, List.length_drop]
  omega

/-- Witness for C3 at a concrete two-turn history. -/
theorem context_role_line_count_witness :
    ([⟨"user", "Hi"⟩, ⟨"assistant", "Hello"⟩] : List Turn).getLast? =
        some ⟨"assistant", "Hello"⟩
    ∧ (builtContext "x" [⟨"user", "Hi"⟩, ⟨"assistant", "Hello"⟩] =
          some ("Instructions: " ++ "x" ++ "\n\n"
            ++ concatAll ((lastTen [⟨"user", "Hi"⟩, ⟨"assistant", "Hello"⟩]).map roleLine)
            ++ ("Human: " ++ (⟨"assistant", "Hello"⟩ : Turn).content ++ "\nAssistant:"))
        ∧ ((lastTen [⟨"user", "Hi"⟩, ⟨"assistant", "Hello"⟩]).map roleLine).length =
            min 10 ([⟨"user", "Hi"⟩, ⟨"assistant", "Hello"⟩] : List Turn).length) :=
  ⟨rfl, context_role_line_count "x" [⟨"user", "Hi"⟩, ⟨"assistant", "Hello"⟩]
    ⟨"assistant", "Hello"⟩ rfl⟩

/-- Claim C2, counterexample: when the stream emits `"Hel"`, `"lo"` and then
raises `"boom"`, the stored assistant content is not the error string alone
(it is `"HelloError generating response: boom"`). -/
theorem stored_turn_error_alone_refuted :
    ¬ renderOutcome 1 (.stream [StreamEv.chunk ⟨"Hel"⟩, StreamEv.chunk ⟨"lo"⟩,
        StreamEv.raise "boom"]) = "Error generating response: boom" := by
  decide

/-- Claim C2, amended: when the underlying stream raises mid-stream, the
assistant turn stored into the conversation is the concatenation of the
previously emitted fragment texts with the error string constructed in the
catch handler (the accumulator's last value), not the error string alone. -/
theorem stored_turn_concat_on_failure (delay : Nat) (chunks : List Chunk) (e : String)
    (rest : List StreamEv) :
    renderOutcome delay (.stream (chunks.map StreamEv.chunk ++ StreamEv.raise e :: rest)) =
      concatAll (nonEmptyTexts chunks) ++ ("Error generating response: " ++ e) := by
  simp [renderOutcome, stream_response_raise, consumeLoop_accum, concatAll_append,
    concatAll, String.empty_append, String.append_empty]

/-- Claim C4: when configuring the model at startup raises, the model is set
to `None`, and every subsequent `get_ai_response` call returns the exact
fixed configuration-error string with an empty prompt trace (no
`generate_content` invocation). -/
theorem unconfigured_fixed_error_no_call (e : String) (msgs : List Turn) (ins : String) :
    init_session_model (.error e) = none
    ∧ get_ai_response (init_session_model (.error e)) msgs ins =
        (.errorStr "Error: Gemini API not configured properly. Please check your API key.",
          []) :=
  ⟨rfl, rfl⟩

/-- Claim C5: for every fragment sequence that completes without failure, the
accumulator after full consumption equals the in-order concatenation of all
fragment texts, for every pacing delay. -/
theorem consume_concat_delay_independent (delay : Nat) (chunks : List Chunk) :
    renderOutcome delay (.stream (chunks.map StreamEv.chunk)) =
      concatAll (chunks.map Chunk.text) := by
  simp [renderOutcome, stream_response_of_chunks, consumeLoop_accum,
    concatAll_nonEmptyTexts, String.empty_append]

/-- Claim C6: if the underlying sequence raises after some chunks,
`stream_response` yields the non-empty chunk texts followed by exactly one
formatted error message as its terminal element, and nothing that follows
the raise is ever yielded. -/
theorem stream_error_terminal (chunks : List Chunk) (e : String) (rest : List StreamEv) :
    stream_response (chunks.map StreamEv.chunk ++ StreamEv.raise e :: rest) =
      nonEmptyTexts chunks ++ ["Error generating response: " ++ e] :=
  stream_response_raise chunks e rest

/-- Claim C7: if invoking `generate_content` on the built context raises with
message `e`, `get_ai_response` returns the error string `"Error: " ++ e`
instead of propagating the exception. -/
theorem invocation_failure_returns_error (m : Model) (msgs : List Turn) (ins : String)
    (last : Turn) (e : String) (hl : msgs.getLast? = some last)
    (hg : m.generate (historyContext ins msgs
        ++ ("Human: " ++ last.content ++ "\nAssistant:")) = .error e) :
    (get_ai_response (some m) msgs ins).1 = .errorStr ("Error: " ++ e) := by
  simp [get_ai_response, hl, hg]

/-- Witness for C7 with a model whose every invocation raises `"boom"`. -/
theorem invocation_failure_returns_error_witness :
    ([⟨"user", "Hi"⟩] : List Turn).getLast? = some ⟨"user", "Hi"⟩
    ∧ (Model.mk fun _ => Except.error "boom").generate
        (historyContext "Be terse." [⟨"user", "Hi"⟩]
          ++ ("Human: " ++ (⟨"user", "Hi"⟩ : Turn).content ++ "\nAssistant:")) =
        .error "boom"
    ∧ (get_ai_response (some (Model.mk fun _ => Except.error "boom"))
        [⟨"user", "Hi"⟩] "Be terse.").1 = .errorStr ("Error: " ++ "boom") :=
  ⟨rfl, rfl, invocation_failure_returns_error _ _ _ _ _ rfl rfl⟩

/-- Claim C8: the clear-conversation action resets the conversation to the
empty sequence, and any context built afterwards from turns appended after
the reset is identical to the context built from those turns alone — no
pre-reset turn can appear in any subsequent prompt. -/
theorem clear_conversation_forgets_history (old fresh : List Turn) (ins : String) :
    clearConversation old = []
    ∧ builtContext ins (clearConversation old ++ fresh) = builtContext ins fresh :=
  ⟨rfl, rfl⟩

/-- Claim C9: for an empty messages list with a configured model,
`get_ai_response` does not raise: the `IndexError` from `messages[-1]` is
absorbed by the catch-all handler and the error string
`"Error: list index out of range"` is returned, with no
`generate_content` invocation. -/
theorem empty_messages_returns_error (m : Model) (ins : String) :
    get_ai_response (some m) [] ins =
      (.errorStr "Error: list index out of range", []) := rfl

/-- Claim C10: `get_ai_response` never mutates the session state — with the
state threaded explicitly, every call returns the state it received, and its
result is determined by reading `model`, `messages` and the instructions. -/
theorem get_ai_response_state_unchanged (st : SessionState) :
    (get_ai_response_st st).2 = st
    ∧ (get_ai_response_st st).1 =
        get_ai_response st.model st.messages st.gptInstructions := by
  obtain ⟨msgs, ins, model⟩ := st
  cases model with
  | none => exact ⟨rfl, rfl⟩
  | some m =>
      cases hl : msgs.getLast? with
      | none => simp [get_ai_response_st, get_ai_response, hl]
      | some last =>
          cases hg : m.generate (historyContext ins msgs
              ++ ("Human: " ++ last.content ++ "\nAssistant:")) with
          | error e => simp [get_ai_response_st, get_ai_response, hl, hg]
          | ok evs => simp [get_ai_response_st, get_ai_response, hl, hg]
